import Mathlib

/-!
Shallow embedding of `src/cf-uploader/cf.py` (the Cloudflare DNS seeder
client) and verification of its specification.

The remote provider is modelled as a deterministic oracle (`Provider`)
mapping each request to its response.  Client-side mutable state
(`SeederState`) holds the lazily cached zone id (`self._zone_id`) and the
transport raw flag (`self.cf._base.raw`).  Every operation returns its
result together with the final state and the ordered trace of provider
calls it issued.  The unbounded `while True` pagination loop is embedded
with explicit fuel; `none` models divergence (fuel ran out before the
loop's break fired).
-/

/-- A DNS zone object as returned by the provider; the code reads only its
`id` field (`zones[0]['id']`). -/
structure Zone where
  id : String
deriving Repr, DecidableEq

/-- A DNS record object; the code reads only the `id` and `content`
fields. -/
structure Record where
  id : String
  content : String
deriving Repr, DecidableEq

/-- Pagination metadata (`result_info`) of a raw read response. -/
structure ResultInfo where
  total_pages : Nat
deriving Repr, DecidableEq

/-- A raw paginated read response: the result list plus `result_info`. -/
structure PageResult where
  result : List Record
  result_info : ResultInfo
deriving Repr, DecidableEq

/-- Query parameters of a `dns_records.get` call, as built in
`get_seed_records`. -/
structure RecParams where
  name : String
  type : String
  per_page : Nat
  page : Nat
deriving Repr, DecidableEq

/-- Payload of a `dns_records.post` call, as built in `set_seed`;
`ttl = none` means the `ttl` key is absent from the record dict. -/
structure NewRecord where
  name : String
  type : String
  content : String
  ttl : Option Nat
deriving Repr, DecidableEq

/-- An exception raised by a provider call.  `apiError` is a
provider-reported API error.  `networkError` is a transport failure.
Modelled from the spec: the CloudFlare client library (not under `src/`)
delivers transport failures wrapped as `CloudFlareAPIError`, which is why
the spec states they do not propagate past the single-seed create path;
`otherError` stands for any exception that is not a `CloudFlareAPIError`. -/
inductive ProviderErr where
  | apiError
  | networkError
  | otherError
deriving Repr, DecidableEq

/-- Whether the exception is an instance of
`CloudFlare.exceptions.CloudFlareAPIError`, the class caught by
`set_seed`'s handler. -/
def ProviderErr.isCloudFlareAPIError : ProviderErr → Bool
  | .apiError => true
  | .networkError => true
  | .otherError => false

/-- Errors observable by callers of the seeder: the two zone-resolution
errors from the `errors` module, or a propagated provider exception. -/
inductive CFErr where
  | zoneNotFound (msg : String)
  | tooManyZones (msg : String)
  | provider (e : ProviderErr)
deriving Repr, DecidableEq

/-- Whether the propagating exception is a `CloudFlareAPIError`
(`ZoneNotFound` and `TooManyZones` are unrelated exception classes). -/
def CFErr.isCloudFlareAPIError : CFErr → Bool
  | .provider e => e.isCloudFlareAPIError
  | _ => false

/-- One provider API call as issued by the client: the call-trace
alphabet. -/
inductive Call where
  | zonesGet (name : String)
  | recordsGet (zone_id : String) (params : RecParams)
  | recordsPost (zone_id : String) (data : NewRecord)
  | recordsDelete (zone_id : String) (record_id : String)
deriving Repr, DecidableEq

/-- Deterministic model of the remote provider: the response each call
receives. -/
structure Provider where
  zonesGet : String → Except ProviderErr (List Zone)
  recordsGet : String → RecParams → Except ProviderErr PageResult
  recordsPost : String → NewRecord → Except ProviderErr Unit
  recordsDelete : String → String → Except ProviderErr Unit

/-- Client configuration fixed at construction: credentials, zone domain
and subdomain label. -/
structure Config where
  user : String
  key : String
  domain : String
  name : String
deriving Repr, DecidableEq

/-- Client-side mutable state: `zone_cache` is `self._zone_id`, `raw` is
`self.cf._base.raw`. -/
structure SeederState where
  zone_cache : Option String
  raw : Bool
deriving Repr, DecidableEq

/-- State right after `__init__`: `self._zone_id = None`, and the
library's raw flag defaults to off. -/
def initState : SeederState := { zone_cache := none, raw := false }

/-- `_lookup_zone_id`, applied to the zone list the provider returned:
zero matches raise `ZoneNotFound`, more than one raise `TooManyZones`,
otherwise the single zone's id is returned. -/
def lookup_zone_id (zones : List Zone) (domain : String) : Except CFErr String :=
  match zones with
  | [] => .error (.zoneNotFound ("Could not find zone named: " ++ domain))
  | [z] => .ok z.id
  | _ :: _ :: _ => .error (.tooManyZones ("More than one zone found named: " ++ domain))

/-- The `zone_id` property: on an empty cache, issue one `zones.get`
lookup and store the result; otherwise return the cached value with no
call. -/
def zone_id (p : Provider) (c : Config) (st : SeederState) :
    Except CFErr String × SeederState × List Call :=
  match st.zone_cache with
  | some z => (.ok z, st, [])
  | none =>
    match p.zonesGet c.domain with
    | .error e => (.error (.provider e), st, [Call.zonesGet c.domain])
    | .ok zones =>
      match lookup_zone_id zones c.domain with
      | .error e => (.error e, st, [Call.zonesGet c.domain])
      | .ok z => (.ok z, { st with zone_cache := some z }, [Call.zonesGet c.domain])

/-- The `default_params` dict of `get_seed_records`, with the varying
`page` entry: name is `'.'.join([self.name, self.domain])`, type `A`,
10 records per page. -/
def seedParams (c : Config) (page : Nat) : RecParams :=
  { name := c.name ++ "." ++ c.domain, type := "A", per_page := 10, page := page }

/-- The `while True` pagination loop of `get_seed_records`: increment the
page counter, fetch the page, accumulate its results, and break once
`page == total_pages`.  Fuel bounds the iteration; `none` is
divergence. -/
def fetchPages (p : Provider) (c : Config) (zid : String) :
    Nat → Nat → List Record → List Call →
    Option (Except ProviderErr (List Record) × List Call)
  | 0, _, _, _ => none
  | fuel + 1, page, records, trace =>
    let page' := page + 1
    let prm := seedParams c page'
    let trace' := trace ++ [Call.recordsGet zid prm]
    match p.recordsGet zid prm with
    | .error e => some (.error e, trace')
    | .ok raw_results =>
      let records' := records ++ raw_results.result
      if page' = raw_results.result_info.total_pages then
        some (.ok records', trace')
      else
        fetchPages p c zid fuel page' records' trace'

/-- `get_seed_records`: resolve the zone, set the raw flag, run the
pagination loop from page counter 0, and clear the raw flag only on the
normal-return path (a propagating fetch error leaves it set). -/
def get_seed_records (fuel : Nat) (p : Provider) (c : Config) (st : SeederState) :
    Option (Except CFErr (List Record) × SeederState × List Call) :=
  match zone_id p c st with
  | (.error e, st', tr) => some (.error e, st', tr)
  | (.ok zid, st', tr) =>
    let st_raw := { st' with raw := true }
    match fetchPages p c zid fuel 0 [] [] with
    | none => none
    | some (.error e, tr2) => some (.error (.provider e), st_raw, tr ++ tr2)
    | some (.ok records, tr2) =>
      some (.ok records, { st_raw with raw := false }, tr ++ tr2)

/-- `get_seeds`: the `content` field of each record from
`get_seed_records`, in order. -/
def get_seeds (fuel : Nat) (p : Provider) (c : Config) (st : SeederState) :
    Option (Except CFErr (List String) × SeederState × List Call) :=
  match get_seed_records fuel p c st with
  | none => none
  | some (.error e, st', tr) => some (.error e, st', tr)
  | some (.ok records, st', tr) =>
    some (.ok (records.map (fun r => r.content)), st', tr)

/-- `set_seed`: build the new record (omitting `ttl` when not given) and
post it; the whole call, including the `zone_id` property access inside
the `try` block, is guarded by a handler that catches exactly
`CloudFlareAPIError`, logs it and returns normally. -/
def set_seed (p : Provider) (c : Config) (st : SeederState)
    (seed : String) (ttl : Option Nat) :
    Except CFErr Unit × SeederState × List Call :=
  let new_record : NewRecord :=
    { name := c.name, type := "A", content := seed, ttl := ttl }
  match zone_id p c st with
  | (.error e, st', tr) =>
    if e.isCloudFlareAPIError then (.ok (), st', tr) else (.error e, st', tr)
  | (.ok zid, st', tr) =>
    let tr' := tr ++ [Call.recordsPost zid new_record]
    match p.recordsPost zid new_record with
    | .ok _ => (.ok (), st', tr')
    | .error e =>
      if e.isCloudFlareAPIError then (.ok (), st', tr') else (.error (.provider e), st', tr')

/-- The `for` loop body of `delete_seeds`: for each fetched record whose
`content` is in `seeds`, access the `zone_id` property and issue a delete
for that record's id; a raising delete aborts the loop and propagates. -/
def deleteMatching (p : Provider) (c : Config) (seeds : List String) :
    SeederState → List Record → Except CFErr Unit × SeederState × List Call
  | st, [] => (.ok (), st, [])
  | st, seed_record :: rest =>
    if seeds.contains seed_record.content then
      match zone_id p c st with
      | (.error e, st', tr) => (.error e, st', tr)
      | (.ok zid, st', tr) =>
        let tr' := tr ++ [Call.recordsDelete zid seed_record.id]
        match p.recordsDelete zid seed_record.id with
        | .error e => (.error (.provider e), st', tr')
        | .ok _ =>
          match deleteMatching p c seeds st' rest with
          | (res, st'', tr'') => (res, st'', tr' ++ tr'')
    else
      deleteMatching p c seeds st rest

/-- `delete_seeds`: fetch all seed records, then delete every record whose
content is in the removal set; errors from `get_seed_records` or from any
individual delete propagate. -/
def delete_seeds (fuel : Nat) (p : Provider) (c : Config) (st : SeederState)
    (seeds : List String) :
    Option (Except CFErr Unit × SeederState × List Call) :=
  match get_seed_records fuel p c st with
  | none => none
  | some (.error e, st', tr) => some (.error e, st', tr)
  | some (.ok records, st', tr) =>
    match deleteMatching p c seeds st' records with
    | (res, st'', tr2) => some (res, st'', tr ++ tr2)

/-- `set_seeds`: `set_seed` once per address, in order; an individual
swallowed failure does not abort the rest. -/
def set_seeds (p : Provider) (c : Config) :
    SeederState → List String → Option Nat →
    Except CFErr Unit × SeederState × List Call
  | st, [], _ => (.ok (), st, [])
  | st, seed :: rest, ttl =>
    match set_seed p c st seed ttl with
    | (.error e, st', tr) => (.error e, st', tr)
    | (.ok _, st', tr) =>
      match set_seeds p c st' rest ttl with
      | (res, st'', tr') => (res, st'', tr ++ tr')

/-! Concrete fixtures used by witness theorems. -/

/-- A concrete configuration. -/
def wConfig : Config :=
  { user := "u", key := "k", domain := "example.com", name := "seed" }

/-- A client state whose zone cache is already resolved. -/
def wStCached : SeederState := { zone_cache := some "zone1", raw := false }

/-- Two concrete seed records. -/
def wRecs : List Record :=
  [{ id := "r1", content := "1.2.3.4" }, { id := "r2", content := "5.6.7.8" }]

/-- A provider answering the zone lookup with a given zone list and every
other call with a benign success. -/
def wProviderZ (zones : List Zone) : Provider :=
  { zonesGet := fun _ => .ok zones
    recordsGet := fun _ _ => .ok { result := [], result_info := { total_pages := 1 } }
    recordsPost := fun _ _ => .ok ()
    recordsDelete := fun _ _ => .ok () }

/-- A provider with one zone and a single page holding `wRecs`. -/
def wProviderP : Provider :=
  { zonesGet := fun _ => .ok [{ id := "zone1" }]
    recordsGet := fun _ _ => .ok { result := wRecs, result_info := { total_pages := 1 } }
    recordsPost := fun _ _ => .ok ()
    recordsDelete := fun _ _ => .ok () }

/-- Page contents for the three-page fixture. -/
def wPage : Nat → List Record
  | 1 => [{ id := "p1", content := "10.0.0.1" }]
  | 2 => [{ id := "p2", content := "10.0.0.2" }]
  | _ => [{ id := "p3", content := "10.0.0.3" }]

/-- A provider reporting three pages on every read. -/
def wProvider3 : Provider :=
  { zonesGet := fun _ => .ok [{ id := "zone1" }]
    recordsGet := fun _ prm =>
      .ok { result := wPage prm.page, result_info := { total_pages := 3 } }
    recordsPost := fun _ _ => .ok ()
    recordsDelete := fun _ _ => .ok () }

/-- A provider reporting `total_pages = 0` on every read. -/
def wProvider0 : Provider :=
  { zonesGet := fun _ => .ok [{ id := "zone1" }]
    recordsGet := fun _ _ => .ok { result := [], result_info := { total_pages := 0 } }
    recordsPost := fun _ _ => .ok ()
    recordsDelete := fun _ _ => .ok () }

/-- A provider whose mutating calls fail with a provider-reported API
error. -/
def wProviderDel : Provider :=
  { zonesGet := fun _ => .ok [{ id := "zone1" }]
    recordsGet := fun _ _ => .ok { result := wRecs, result_info := { total_pages := 1 } }
    recordsPost := fun _ _ => .error .apiError
    recordsDelete := fun _ _ => .error .apiError }

/-- A provider whose every call fails with a transport error. -/
def wProviderNet : Provider :=
  { zonesGet := fun _ => .error .networkError
    recordsGet := fun _ _ => .error .networkError
    recordsPost := fun _ _ => .error .networkError
    recordsDelete := fun _ _ => .error .networkError }

/-- C3: for every zone-lookup response, resolving the zone from an
unresolved cache returns the single matching zone's id; zero matches fail
with ZoneNotFound; two or more fail with TooManyZones. -/
theorem C3_resolve_zone_cases (p : Provider) (c : Config) (st : SeederState)
    (zones : List Zone) (hc : st.zone_cache = none)
    (hz : p.zonesGet c.domain = .ok zones) :
    (∀ z, zones = [z] → (zone_id p c st).1 = .ok z.id) ∧
    (zones = [] → ∃ m, (zone_id p c st).1 = .error (.zoneNotFound m)) ∧
    (2 ≤ zones.length → ∃ m, (zone_id p c st).1 = .error (.tooManyZones m)) := by
  refine ⟨?_, ?_, ?_⟩
  · rintro z rfl
    simp [zone_id, hc, hz, lookup_zone_id]
  · rintro rfl
    exact ⟨"Could not find zone named: " ++ c.domain,
      by simp [zone_id, hc, hz, lookup_zone_id]⟩
  · intro hlen
    rcases zones with _ | ⟨z1, _ | ⟨z2, zrest⟩⟩
    · simp at hlen
    · simp at hlen
    · exact ⟨"More than one zone found named: " ++ c.domain,
        by simp [zone_id, hc, hz, lookup_zone_id]⟩

/-- Witness for C3 at concrete one-, zero- and two-zone responses. -/
theorem C3_resolve_zone_cases_witness :
    (zone_id (wProviderZ [{ id := "zone1" }]) wConfig initState).1 = .ok "zone1" ∧
    (∃ m, (zone_id (wProviderZ []) wConfig initState).1 = .error (.zoneNotFound m)) ∧
    (∃ m, (zone_id (wProviderZ [{ id := "a" }, { id := "b" }]) wConfig initState).1 =
      .error (.tooManyZones m)) :=
  ⟨(C3_resolve_zone_cases (wProviderZ [{ id := "zone1" }]) wConfig initState
      [{ id := "zone1" }] rfl rfl).1 { id := "zone1" } rfl,
   (C3_resolve_zone_cases (wProviderZ []) wConfig initState [] rfl rfl).2.1 rfl,
   (C3_resolve_zone_cases (wProviderZ [{ id := "a" }, { id := "b" }]) wConfig initState
      [{ id := "a" }, { id := "b" }] rfl rfl).2.2 (by decide)⟩

/-- C6: the first successful access to `zone_id` issues exactly one zone
lookup and stores the result; every access on a resolved cache returns the
stored value with no lookup and leaves the state unchanged. -/
theorem C6_zone_cache (p : Provider) (c : Config) (z : Zone)
    (hz : p.zonesGet c.domain = .ok [z]) :
    zone_id p c initState =
      (.ok z.id, { zone_cache := some z.id, raw := false }, [Call.zonesGet c.domain]) ∧
    (∀ st : SeederState, ∀ zid, st.zone_cache = some zid →
      zone_id p c st = (.ok zid, st, [])) := by
  constructor
  · simp [zone_id, initState, hz, lookup_zone_id]
  · intro st zid hc
    simp [zone_id, hc]

/-- Witness for C6: a first and a second access at a concrete provider. -/
theorem C6_zone_cache_witness :
    zone_id (wProviderZ [{ id := "zone1" }]) wConfig initState =
      (.ok "zone1", { zone_cache := some "zone1", raw := false },
        [Call.zonesGet "example.com"]) ∧
    zone_id (wProviderZ [{ id := "zone1" }]) wConfig
        { zone_cache := some "zone1", raw := false } =
      (.ok "zone1", { zone_cache := some "zone1", raw := false }, []) :=
  ⟨(C6_zone_cache (wProviderZ [{ id := "zone1" }]) wConfig { id := "zone1" } rfl).1,
   (C6_zone_cache (wProviderZ [{ id := "zone1" }]) wConfig { id := "zone1" } rfl).2
      { zone_cache := some "zone1", raw := false } "zone1" rfl⟩

/-- C8: `set_seed` issues exactly one create call whose payload is
`name = subdomain, type = A, content = address`, with `ttl` present
exactly when the argument was given. -/
theorem C8_set_seed_payload (p : Provider) (c : Config) (st : SeederState)
    (zid : String) (hc : st.zone_cache = some zid)
    (seed : String) (ttl : Option Nat) :
    (set_seed p c st seed ttl).2.2 =
      [Call.recordsPost zid
        { name := c.name, type := "A", content := seed, ttl := ttl }] := by
  simp only [set_seed, zone_id, hc]
  cases hp : p.recordsPost zid
      { name := c.name, type := "A", content := seed, ttl := ttl } with
  | error e => cases he : e.isCloudFlareAPIError <;> simp [hp, he]
  | ok u => simp [hp]

/-- Witness for C8 with and without a ttl. -/
theorem C8_set_seed_payload_witness :
    (set_seed wProviderP wConfig wStCached "1.2.3.4" (some 300)).2.2 =
      [Call.recordsPost "zone1"
        { name := "seed", type := "A", content := "1.2.3.4", ttl := some 300 }] ∧
    (set_seed wProviderP wConfig wStCached "1.2.3.4" none).2.2 =
      [Call.recordsPost "zone1"
        { name := "seed", type := "A", content := "1.2.3.4", ttl := none }] :=
  ⟨C8_set_seed_payload wProviderP wConfig wStCached "zone1" rfl "1.2.3.4" (some 300),
   C8_set_seed_payload wProviderP wConfig wStCached "zone1" rfl "1.2.3.4" none⟩

/-- C9: `get_seeds` returns exactly the `content` field of each record
from `get_seed_records`, in the same order, with the same count. -/
theorem C9_get_seeds_map (fuel : Nat) (p : Provider) (c : Config) (st : SeederState)
    (records : List Record) (st' : SeederState) (tr : List Call)
    (h : get_seed_records fuel p c st = some (.ok records, st', tr)) :
    get_seeds fuel p c st =
      some (.ok (records.map (fun x => x.content)), st', tr) := by
  simp [get_seeds, h]

/-- Witness for C9 at the single-page fixture. -/
theorem C9_get_seeds_map_witness :
    get_seeds 1 wProviderP wConfig wStCached =
      some (.ok ["1.2.3.4", "5.6.7.8"], wStCached,
        [Call.recordsGet "zone1" (seedParams wConfig 1)]) :=
  C9_get_seeds_map 1 wProviderP wConfig wStCached wRecs wStCached
    [Call.recordsGet "zone1" (seedParams wConfig 1)] rfl

/-- C10: with a resolved zone cache, every terminating run of
`get_seed_records` ends with the raw flag off exactly on the normal-return
path; a propagating page-fetch error leaves the flag on. -/
theorem C10_raw_flag (p : Provider) (c : Config) (zid : String) (st : SeederState)
    (fuel : Nat) (res : Except CFErr (List Record)) (st' : SeederState) (tr : List Call)
    (hc : st.zone_cache = some zid)
    (h : get_seed_records fuel p c st = some (res, st', tr)) :
    (∀ records, res = .ok records → st'.raw = false) ∧
    (∀ e, res = .error e → st'.raw = true) := by
  simp only [get_seed_records, zone_id, hc] at h
  rcases hfp : fetchPages p c zid fuel 0 [] [] with _ | ⟨r2, tr2⟩
  · rw [hfp] at h
    simp at h
  · rw [hfp] at h
    rcases r2 with e2 | recs
    · simp only [Option.some.injEq, Prod.mk.injEq] at h
      obtain ⟨hres, hst, -⟩ := h
      subst hres
      subst hst
      exact ⟨fun records hr => (nomatch hr), fun e he => rfl⟩
    · simp only [Option.some.injEq, Prod.mk.injEq] at h
      obtain ⟨hres, hst, -⟩ := h
      subst hres
      subst hst
      exact ⟨fun records hr => rfl, fun e he => nomatch he⟩

/-- Witness for C10: a successful run ends with the flag off; a failing
run ends with it on. -/
theorem C10_raw_flag_witness :
    (({ zone_cache := some "zone1", raw := false } : SeederState).raw = false) ∧
    (({ zone_cache := some "zone1", raw := true } : SeederState).raw = true) :=
  ⟨(C10_raw_flag wProviderP wConfig "zone1" wStCached 1 (.ok wRecs)
      { zone_cache := some "zone1", raw := false }
      [Call.recordsGet "zone1" (seedParams wConfig 1)] rfl rfl).1 wRecs rfl,
   (C10_raw_flag wProviderNet wConfig "zone1" wStCached 1
      (.error (.provider .networkError))
      { zone_cache := some "zone1", raw := true }
      [Call.recordsGet "zone1" (seedParams wConfig 1)] rfl rfl).2
      (.provider .networkError) rfl⟩

/-- C1: with every page reporting `total_pages = 3`, `get_seed_records`
issues exactly the three reads for pages 1, 2, 3 (name
`subdomain.domain`, type `A`, `per_page = 10`) and returns the three
pages' results concatenated in fetch order. -/
theorem C1_three_pages (p : Provider) (c : Config) (zid : String) (st : SeederState)
    (r : Nat → List Record) (hc : st.zone_cache = some zid)
    (hp : ∀ prm : RecParams, p.recordsGet zid prm =
      .ok { result := r prm.page, result_info := { total_pages := 3 } })
    (k : Nat) :
    get_seed_records (k + 3) p c st =
      some (.ok (r 1 ++ r 2 ++ r 3), { st with raw := false },
        [Call.recordsGet zid
          { name := c.name ++ "." ++ c.domain, type := "A", per_page := 10, page := 1 },
         Call.recordsGet zid
          { name := c.name ++ "." ++ c.domain, type := "A", per_page := 10, page := 2 },
         Call.recordsGet zid
          { name := c.name ++ "." ++ c.domain, type := "A", per_page := 10, page := 3 }]) := by
  have hstep : ∀ fuel page records trace, page + 1 ≠ 3 →
      fetchPages p c zid (fuel + 1) page records trace =
        fetchPages p c zid fuel (page + 1) (records ++ r (page + 1))
          (trace ++ [Call.recordsGet zid (seedParams c (page + 1))]) := by
    intro fuel page records trace hne
    simp [fetchPages, hp, hne, seedParams]
  have hlast : ∀ fuel records trace,
      fetchPages p c zid (fuel + 1) 2 records trace =
        some (.ok (records ++ r 3), trace ++ [Call.recordsGet zid (seedParams c 3)]) := by
    intro fuel records trace
    simp [fetchPages, hp, seedParams]
  have hrun : fetchPages p c zid (k + 3) 0 [] [] =
      some (.ok (([] ++ r 1 ++ r 2) ++ r 3),
        (([] ++ [Call.recordsGet zid (seedParams c 1)]) ++
          [Call.recordsGet zid (seedParams c 2)]) ++
          [Call.recordsGet zid (seedParams c 3)]) := by
    rw [show (k + 3 : Nat) = (k + 2) + 1 from rfl, hstep (k + 2) 0 [] [] (by omega)]
    rw [show (k + 2 : Nat) = (k + 1) + 1 from rfl]
    rw [hstep (k + 1) 1 ([] ++ r (0 + 1)) ([] ++ [Call.recordsGet zid (seedParams c (0 + 1))]) (by omega)]
    rw [hlast]
  simp [get_seed_records, zone_id, hc, hrun, seedParams]

/-- Witness for C1 at a concrete three-page provider. -/
theorem C1_three_pages_witness :
    get_seed_records 3 wProvider3 wConfig wStCached =
      some (.ok [{ id := "p1", content := "10.0.0.1" },
                 { id := "p2", content := "10.0.0.2" },
                 { id := "p3", content := "10.0.0.3" }],
        { zone_cache := some "zone1", raw := false },
        [Call.recordsGet "zone1"
          { name := "seed.example.com", type := "A", per_page := 10, page := 1 },
         Call.recordsGet "zone1"
          { name := "seed.example.com", type := "A", per_page := 10, page := 2 },
         Call.recordsGet "zone1"
          { name := "seed.example.com", type := "A", per_page := 10, page := 3 }]) :=
  C1_three_pages wProvider3 wConfig "zone1" wStCached wPage rfl (fun _ => rfl) 0

/-- Helper: every terminating run of the pagination loop issues the fetch
for the incremented page counter first, before any exit test. -/
theorem fetchPages_first_call (p : Provider) (c : Config) (zid : String) :
    ∀ fuel page records trace res tr,
      fetchPages p c zid fuel page records trace = some (res, tr) →
      ∃ rest, tr = trace ++ Call.recordsGet zid (seedParams c (page + 1)) :: rest := by
  intro fuel
  induction fuel with
  | zero =>
    intro page records trace res tr h
    simp [fetchPages] at h
  | succ n ih =>
    intro page records trace res tr h
    simp only [fetchPages] at h
    rcases hg : p.recordsGet zid (seedParams c (page + 1)) with e2 | pr
    · rw [hg] at h
      simp only [Option.some.injEq, Prod.mk.injEq] at h
      exact ⟨[], by simp [h.2.symm]⟩
    · simp only [hg] at h
      by_cases hpg : page + 1 = pr.result_info.total_pages
      · rw [if_pos hpg] at h
        simp only [Option.some.injEq, Prod.mk.injEq] at h
        exact ⟨[], by simp [h.2.symm]⟩
      · rw [if_neg hpg] at h
        obtain ⟨rest2, hrest⟩ := ih _ _ _ _ _ h
        exact ⟨Call.recordsGet zid (seedParams c (page + 1 + 1)) :: rest2,
          by simp [hrest]⟩

/-- Helper: when every read reports `total_pages = 0`, the exit test
`page == total_pages` never fires, so the loop consumes all fuel. -/
theorem fetchPages_zero_total (p : Provider) (c : Config) (zid : String)
    (h0 : ∀ prm : RecParams, ∃ rs, p.recordsGet zid prm =
      .ok { result := rs, result_info := { total_pages := 0 } }) :
    ∀ fuel page records trace, fetchPages p c zid fuel page records trace = none := by
  intro fuel
  induction fuel with
  | zero =>
    intro page records trace
    simp [fetchPages]
  | succ n ih =>
    intro page records trace
    obtain ⟨rs, hg⟩ := h0 (seedParams c (page + 1))
    have hne : ¬(page + 1 = 0) := by omega
    simp only [fetchPages, hg]
    simp [hne, ih]

/-- C5: with a resolved zone cache, every terminating run of
`get_seed_records` fetched page 1 before any exit test (the loop always
issues at least one read), and against a provider reporting
`total_pages = 0` on every page the loop never exits: the run diverges for
every fuel bound, so termination requires a reported total of at least
one page. -/
theorem C5_pagination_termination (p : Provider) (c : Config) (zid : String)
    (st : SeederState) (hc : st.zone_cache = some zid) :
    (∀ fuel res st' tr, get_seed_records fuel p c st = some (res, st', tr) →
      tr.head? = some (Call.recordsGet zid (seedParams c 1))) ∧
    ((∀ prm : RecParams, ∃ rs, p.recordsGet zid prm =
        .ok { result := rs, result_info := { total_pages := 0 } }) →
      ∀ fuel, get_seed_records fuel p c st = none) := by
  constructor
  · intro fuel res st' tr h
    simp only [get_seed_records, zone_id, hc] at h
    rcases hfp : fetchPages p c zid fuel 0 [] [] with _ | ⟨r2, tr2⟩
    · rw [hfp] at h
      simp at h
    · obtain ⟨rest, hrest⟩ := fetchPages_first_call p c zid fuel 0 [] [] r2 tr2 hfp
      rw [hfp] at h
      rcases r2 with e2 | recs
      · simp only [Option.some.injEq, Prod.mk.injEq] at h
        rw [← h.2.2, hrest]
        simp
      · simp only [Option.some.injEq, Prod.mk.injEq] at h
        rw [← h.2.2, hrest]
        simp
  · intro h0 fuel
    simp [get_seed_records, zone_id, hc, fetchPages_zero_total p c zid h0]

/-- Witness for C5: a terminating concrete run starts with the page-1
fetch, and the concrete zero-total provider diverges at fuel 5. -/
theorem C5_pagination_termination_witness :
    ([Call.recordsGet "zone1" (seedParams wConfig 1)].head? =
      some (Call.recordsGet "zone1" (seedParams wConfig 1))) ∧
    get_seed_records 5 wProvider0 wConfig wStCached = none :=
  ⟨(C5_pagination_termination wProviderP wConfig "zone1" wStCached rfl).1 1
      (.ok wRecs) { zone_cache := some "zone1", raw := false }
      [Call.recordsGet "zone1" (seedParams wConfig 1)] rfl,
   (C5_pagination_termination wProvider0 wConfig "zone1" wStCached rfl).2
      (fun _ => ⟨[], rfl⟩) 5⟩

/-- Helper: with a resolved cache and all deletes succeeding, the delete
loop issues exactly one delete per record whose content is in the removal
set, in record order, and leaves the state unchanged. -/
theorem deleteMatching_ok (p : Provider) (c : Config) (seeds : List String)
    (zid : String) (hdel : ∀ rid, p.recordsDelete zid rid = .ok ()) :
    ∀ records (st : SeederState), st.zone_cache = some zid →
      deleteMatching p c seeds st records =
        (.ok (), st,
          (records.filter (fun x => seeds.contains x.content)).map
            (fun x => Call.recordsDelete zid x.id)) := by
  intro records
  induction records with
  | nil =>
    intro st hc
    simp [deleteMatching]
  | cons x rest ih =>
    intro st hc
    by_cases hx : x.content ∈ seeds
    · simp [deleteMatching, hx, zone_id, hc, hdel, ih st hc]
    · simp [deleteMatching, hx, ih st hc]

/-- Helper: with a resolved cache, if the deletes before some matching
record succeed and the delete of that record fails, the delete loop
propagates that failure. -/
theorem deleteMatching_error (p : Provider) (c : Config) (seeds : List String)
    (zid : String) (e : ProviderErr) :
    ∀ pre (st : SeederState), st.zone_cache = some zid →
      ∀ x post, seeds.contains x.content = true →
      (∀ q ∈ pre, p.recordsDelete zid q.id = .ok ()) →
      p.recordsDelete zid x.id = .error e →
      (deleteMatching p c seeds st (pre ++ x :: post)).1 = .error (.provider e) := by
  intro pre
  induction pre with
  | nil =>
    intro st hc x post hmem hpre hdel
    have hmem' : x.content ∈ seeds := by simpa using hmem
    simp [deleteMatching, hmem', zone_id, hc, hdel]
  | cons q qrest ih =>
    intro st hc x post hmem hpre hdel
    have hq : p.recordsDelete zid q.id = .ok () := hpre q (by simp)
    have hrec := ih st hc x post hmem (fun y hy => hpre y (by simp [hy])) hdel
    by_cases hqc : q.content ∈ seeds
    · simp only [List.cons_append, deleteMatching]
      simp only [zone_id, hc, hq]
      simpa [hqc] using hrec
    · simp only [List.cons_append, deleteMatching]
      simpa [hqc] using hrec

/-- C2: a provider-reported API error on the create call is swallowed by
`set_seed`, which returns normally; a provider error on any individual
delete inside `delete_seeds` propagates to the caller. -/
theorem C2_error_asymmetry (p : Provider) (c : Config) (st0 : SeederState)
    (zid : String) (seed : String) (ttl : Option Nat) (fuel : Nat)
    (seeds : List String) (pre post : List Record) (x : Record)
    (st : SeederState) (tr : List Call)
    (hc0 : st0.zone_cache = some zid) :
    (p.recordsPost zid { name := c.name, type := "A", content := seed, ttl := ttl } =
        .error .apiError →
      (set_seed p c st0 seed ttl).1 = .ok ()) ∧
    (get_seed_records fuel p c st0 = some (.ok (pre ++ x :: post), st, tr) →
     st.zone_cache = some zid →
     seeds.contains x.content = true →
     (∀ q ∈ pre, p.recordsDelete zid q.id = .ok ()) →
     p.recordsDelete zid x.id = .error .apiError →
      ∃ st' tr', delete_seeds fuel p c st0 seeds =
        some (.error (.provider .apiError), st', tr')) := by
  constructor
  · intro hpost
    simp [set_seed, zone_id, hc0, hpost, ProviderErr.isCloudFlareAPIError]
  · intro hget hc hmem hpre hdel
    have herr := deleteMatching_error p c seeds zid .apiError pre st hc x post
      hmem hpre hdel
    simp only [delete_seeds, hget]
    rcases hdm : deleteMatching p c seeds st (pre ++ x :: post) with ⟨dres, dst, dtr⟩
    rw [hdm] at herr
    simp only at herr
    subst herr
    exact ⟨dst, tr ++ dtr, rfl⟩

/-- Witness for C2: the concrete failing provider swallows the create
error and propagates the delete error. -/
theorem C2_error_asymmetry_witness :
    (set_seed wProviderDel wConfig wStCached "1.2.3.4" none).1 = .ok () ∧
    (∃ st' tr', delete_seeds 1 wProviderDel wConfig wStCached ["1.2.3.4"] =
      some (.error (.provider .apiError), st', tr')) :=
  ⟨(C2_error_asymmetry wProviderDel wConfig wStCached "zone1" "1.2.3.4" none 1
      ["1.2.3.4"] [] [{ id := "r2", content := "5.6.7.8" }]
      { id := "r1", content := "1.2.3.4" } wStCached
      [Call.recordsGet "zone1" (seedParams wConfig 1)] rfl).1 rfl,
   (C2_error_asymmetry wProviderDel wConfig wStCached "zone1" "1.2.3.4" none 1
      ["1.2.3.4"] [] [{ id := "r2", content := "5.6.7.8" }]
      { id := "r1", content := "1.2.3.4" } wStCached
      [Call.recordsGet "zone1" (seedParams wConfig 1)] rfl).2 rfl rfl rfl
      (fun q hq => absurd hq (List.not_mem_nil q)) rfl⟩

/-- C7: `delete_seeds` issues exactly one delete, carrying the record's
id, for each fetched record whose content is in the removal set, and no
delete for any other record. -/
theorem C7_delete_exactly_matching (fuel : Nat) (p : Provider) (c : Config)
    (st st' : SeederState) (zid : String) (seeds : List String)
    (records : List Record) (tr : List Call)
    (hget : get_seed_records fuel p c st = some (.ok records, st', tr))
    (hzc : st'.zone_cache = some zid)
    (hdel : ∀ rid, p.recordsDelete zid rid = .ok ()) :
    delete_seeds fuel p c st seeds =
      some (.ok (), st',
        tr ++ (records.filter (fun x => seeds.contains x.content)).map
          (fun x => Call.recordsDelete zid x.id)) := by
  simp [delete_seeds, hget, deleteMatching_ok p c seeds zid hdel records st' hzc]

/-- Witness for C7: removing `1.2.3.4` from the two-record fixture issues
exactly the one delete for record `r1`. -/
theorem C7_delete_exactly_matching_witness :
    delete_seeds 1 wProviderP wConfig wStCached ["1.2.3.4"] =
      some (.ok (), wStCached,
        [Call.recordsGet "zone1" (seedParams wConfig 1),
         Call.recordsDelete "zone1" "r1"]) :=
  C7_delete_exactly_matching 1 wProviderP wConfig wStCached wStCached "zone1"
    ["1.2.3.4"] wRecs [Call.recordsGet "zone1" (seedParams wConfig 1)]
    rfl rfl (fun _ => rfl)

/-- C4: transport failures (delivered by the provider library as
CloudFlareAPIError instances) propagate out of zone resolution, reads and
deletes, but are caught on the single-seed create path, which returns
normally. -/
theorem C4_network_errors (p : Provider) (c : Config) (st : SeederState)
    (zid : String) (seed : String) (ttl : Option Nat) (seeds : List String)
    (rest : List Record) (x : Record) (fuel : Nat) :
    (st.zone_cache = some zid →
     p.recordsPost zid { name := c.name, type := "A", content := seed, ttl := ttl } =
        .error .networkError →
      (set_seed p c st seed ttl).1 = .ok ()) ∧
    (st.zone_cache = none →
     p.zonesGet c.domain = .error .networkError →
      (zone_id p c st).1 = .error (.provider .networkError)) ∧
    (st.zone_cache = some zid →
     p.recordsGet zid (seedParams c 1) = .error .networkError →
      get_seed_records (fuel + 1) p c st =
        some (.error (.provider .networkError), { st with raw := true },
          [Call.recordsGet zid (seedParams c 1)])) ∧
    (st.zone_cache = some zid →
     seeds.contains x.content = true →
     p.recordsDelete zid x.id = .error .networkError →
      (deleteMatching p c seeds st (x :: rest)).1 =
        .error (.provider .networkError)) := by
  refine ⟨?_, ?_, ?_, ?_⟩
  · intro hc hpost
    simp [set_seed, zone_id, hc, hpost, ProviderErr.isCloudFlareAPIError]
  · intro hc hz
    simp [zone_id, hc, hz]
  · intro hc hg
    simp [get_seed_records, zone_id, hc, fetchPages, hg]
  · intro hc hmem hdel
    have hmem' : x.content ∈ seeds := by simpa using hmem
    simp [deleteMatching, hmem', zone_id, hc, hdel]

/-- Witness for C4 at the all-failing transport fixture. -/
theorem C4_network_errors_witness :
    (set_seed wProviderNet wConfig wStCached "1.2.3.4" none).1 = .ok () ∧
    (zone_id wProviderNet wConfig initState).1 = .error (.provider .networkError) ∧
    get_seed_records 1 wProviderNet wConfig wStCached =
      some (.error (.provider .networkError),
        { zone_cache := some "zone1", raw := true },
        [Call.recordsGet "zone1" (seedParams wConfig 1)]) ∧
    (deleteMatching wProviderNet wConfig ["1.2.3.4"] wStCached
      [{ id := "r1", content := "1.2.3.4" }]).1 =
        .error (.provider .networkError) :=
  ⟨(C4_network_errors wProviderNet wConfig wStCached "zone1" "1.2.3.4" none
      ["1.2.3.4"] [] { id := "r1", content := "1.2.3.4" } 0).1 rfl rfl,
   (C4_network_errors wProviderNet wConfig initState "zone1" "1.2.3.4" none
      ["1.2.3.4"] [] { id := "r1", content := "1.2.3.4" } 0).2.1 rfl rfl,
   (C4_network_errors wProviderNet wConfig wStCached "zone1" "1.2.3.4" none
      ["1.2.3.4"] [] { id := "r1", content := "1.2.3.4" } 0).2.2.1 rfl rfl,
   (C4_network_errors wProviderNet wConfig wStCached "zone1" "1.2.3.4" none
      ["1.2.3.4"] [] { id := "r1", content := "1.2.3.4" } 0).2.2.2 rfl rfl rfl⟩
